import Mathlib

/-!
Verification development for image-date-fixer.

The definitions below are a shallow embedding of `image-date-fixer.py`.
Pure helper functions of the script (the filename date extractors and the
extraction dispatcher) are translated directly; the stateful per-file
reconciliation `process_file` is modelled as a function from an explicit
file state (filesystem modification date plus optional embedded EXIF date)
to the list of metadata-accessor write calls it performs, and Python
exceptions are modelled with `Except`.  Machine-level details that the
script does not depend on (timezones, sub-second precision) are not
modelled; comments note where this matters.
-/

set_option maxRecDepth 10000

deriving instance DecidableEq for Except

namespace IDF

/-- Python exceptions that the embedded code can raise. -/
inductive PyErr where
  | typeError
  | valueError
  | overflowError
  | attributeError
  | systemExit
  deriving DecidableEq

/-- A naive `datetime` value with second precision (the script never uses
timezones, and sub-second parts play no role in any of its decisions). -/
structure Date where
  year : Nat
  month : Nat
  day : Nat
  hour : Nat
  minute : Nat
  second : Nat
  deriving DecidableEq

/-- Days from 1970-01-01 for a proleptic Gregorian calendar date
(standard civil-from-days algorithm, valid for year at least 1). -/
def daysFromCivil (y m d : Nat) : Int :=
  let y' := if m ≤ 2 then y - 1 else y
  let era := y' / 400
  let yoe := y' % 400
  let mp := (m + 9) % 12
  let doy := (153 * mp + 2) / 5 + (d - 1)
  let doe := yoe * 365 + yoe / 4 - yoe / 100 + doy
  (era * 146097 + doe : Int) - 719468

/-- Seconds since the Unix epoch.  Comparison of two valid `Date`s through
`toSecs` agrees with Python's lexicographic `datetime` comparison. -/
def Date.toSecs (dt : Date) : Int :=
  daysFromCivil dt.year dt.month dt.day * 86400 +
    (dt.hour * 3600 + dt.minute * 60 + dt.second : Nat)

/-- The timestamp floor `datetime(1970, 1, 2)` used by the script. -/
def floorDate : Date := ⟨1970, 1, 2, 0, 0, 0⟩

/-- Inverse of days-from-civil; argument is days since epoch plus 719468. -/
def civilFromDays (z : Nat) : Nat × Nat × Nat :=
  let era := z / 146097
  let doe := z % 146097
  let yoe := (doe - doe / 1460 + doe / 36524 - doe / 146096) / 365
  let y := yoe + era * 400
  let doy := doe - (365 * yoe + yoe / 4 - yoe / 100)
  let mp := (5 * doy + 2) / 153
  let d := doy - (153 * mp + 2) / 5 + 1
  let m := if mp < 10 then mp + 3 else mp - 9
  (if m ≤ 2 then y + 1 else y, m, d)

/-- Date for a nonnegative count of seconds since the epoch. -/
def dateOfSecs (secs : Nat) : Date :=
  let days := secs / 86400
  let c := civilFromDays (days + 719468)
  ⟨c.1, c.2.1, c.2.2, secs % 86400 / 3600, secs % 86400 % 3600 / 60, secs % 60⟩

/-! ### Path and string helpers (`os.path` and `str` methods).  These are
implemented over `List Char` by structural recursion so that concrete
evaluations reduce inside the kernel. -/

/-- Split a character list at every occurrence of a separator character. -/
def chSplit (sep : Char) : List Char → List (List Char)
  | [] => [[]]
  | c :: r =>
    let rest := chSplit sep r
    if c = sep then [] :: rest
    else
      match rest with
      | h :: t => (c :: h) :: t
      | [] => [[c]]

/-- Join character lists with a slash between them. -/
def joinSlash : List (List Char) → List Char
  | [] => []
  | [x] => x
  | x :: y :: t => x ++ '/' :: joinSlash (y :: t)

/-- Model of `os.path.basename` for POSIX paths. -/
def basename (p : String) : String :=
  String.mk ((chSplit '/' p.data).getLastD p.data)

/-- Model of `os.path.dirname` for POSIX paths. -/
def dirname (p : String) : String :=
  String.mk (joinSlash ((chSplit '/' p.data).dropLast))

/-- Model of `os.path.join` for the relative one-component case used by the
screenshot extractor (the stripped basename never contains a slash). -/
def pathJoin (d f : String) : String :=
  if d.data.isEmpty then f else String.mk (d.data ++ '/' :: f.data)

/-- Lowercase an ASCII character (model of `str.lower` per character). -/
def asciiLower (c : Char) : Char :=
  if 65 ≤ c.toNat ∧ c.toNat ≤ 90 then Char.ofNat (c.toNat + 32) else c

/-- Fuelled worker for `replaceAll`; the fuel is the input length, which
bounds the number of steps for a nonempty pattern. -/
def replaceAllFuel (pat repl : List Char) : Nat → List Char → List Char
  | _, [] => []
  | 0, l => l
  | fuel + 1, c :: t =>
    if pat.isPrefixOf (c :: t) then
      repl ++ replaceAllFuel pat repl fuel (List.drop (pat.length - 1) t)
    else c :: replaceAllFuel pat repl fuel t

/-- Model of Python `str.replace` (all occurrences, left to right) for a
nonempty pattern. -/
def replaceAll (pat repl l : List Char) : List Char :=
  replaceAllFuel pat repl l.length l

/-- Python's substring containment `needle in hay`. -/
def containsSub (needle : List Char) : List Char → Bool
  | [] => needle.isPrefixOf []
  | c :: t => needle.isPrefixOf (c :: t) || containsSub needle t

/-! ### Digit and strptime helpers -/

def digitVal (c : Char) : Nat := c.toNat - 48

def natOfDigits (ds : List Char) : Nat :=
  ds.foldl (fun acc c => acc * 10 + digitVal c) 0

/-- Consume exactly `n` decimal digits, returning them and the rest. -/
def readDigits : Nat → List Char → Option (List Char × List Char)
  | 0, l => some ([], l)
  | _ + 1, [] => none
  | n + 1, c :: r =>
    if c.isDigit then
      match readDigits n r with
      | some (ds, rest) => some (c :: ds, rest)
      | none => none
    else none

/-- Read two digits as a number (a `(\d\x7b2\x7d)` group). -/
def read2 (l : List Char) : Option (Nat × List Char) :=
  match l with
  | a :: b :: r =>
    if a.isDigit && b.isDigit then some (digitVal a * 10 + digitVal b, r) else none
  | _ => none

/-- Read four digits as a number (a `(\d\x7b4\x7d)` group). -/
def read4 (l : List Char) : Option (Nat × List Char) :=
  match readDigits 4 l with
  | some (ds, rest) => some (natOfDigits ds, rest)
  | none => none

def isLeap (y : Nat) : Bool := (y % 4 == 0 && y % 100 != 0) || y % 400 == 0

def daysInMonth (y m : Nat) : Nat :=
  if m == 2 then (if isLeap y then 29 else 28)
  else if m == 4 || m == 6 || m == 9 || m == 11 then 30 else 31

/-- Model of `datetime.strptime` on the fixed-width all-numeric formats the
script uses, followed by `datetime` construction: for those inputs CPython's
parse succeeds exactly when every component is in range for the calendar
(any misaligned flexible-width parse leaves unconverted data and raises
`ValueError`), so range checking the fixed-width fields is faithful. -/
def strptimeDate (y mo d h mi s : Nat) : Option Date :=
  if 1 ≤ y ∧ y ≤ 9999 ∧ 1 ≤ mo ∧ mo ≤ 12 ∧ 1 ≤ d ∧ d ≤ daysInMonth y mo ∧
      h ≤ 23 ∧ mi ≤ 59 ∧ s ≤ 59 then
    some ⟨y, mo, d, h, mi, s⟩
  else none

/-! ### The five date extractors (source lines 29-137) -/

/-- Regex body of the Android pattern `IMG_(\d\x7b8\x7d)_(\d\x7b6\x7d)` tried at one
position; returns the eight date digits and six time digits. -/
def matchAndroidAt (l : List Char) : Option (List Char × List Char) :=
  match l with
  | 'I' :: 'M' :: 'G' :: '_' :: r =>
    match readDigits 8 r with
    | some (d8, r2) =>
      match r2 with
      | '_' :: r3 =>
        match readDigits 6 r3 with
        | some (t6, _) => some (d8, t6)
        | none => none
      | _ => none
    | none => none
  | _ => none

/-- `re.search`: leftmost position at which the Android pattern matches. -/
def searchAndroid : List Char → Option (List Char × List Char)
  | [] => none
  | c :: r =>
    match matchAndroidAt (c :: r) with
    | some x => some x
    | none => searchAndroid r

/-- Source lines 29-44: extractor for Android-style names such as
`IMG_20190818_130841.jpg`; `re.search` over the basename, then
`strptime("%Y%m%d%H%M%S")` with `ValueError` caught as `None`. -/
def get_date_from_android_filepath (p : String) : Option Date :=
  match searchAndroid (basename p).data with
  | none => none
  | some (d8, t6) =>
    strptimeDate (natOfDigits (d8.take 4)) (natOfDigits ((d8.drop 4).take 2))
      (natOfDigits (d8.drop 6)) (natOfDigits (t6.take 2))
      (natOfDigits ((t6.drop 2).take 2)) (natOfDigits (t6.drop 4))

/-- Regex body of the WhatsApp pattern `IMG-(\d\x7b8\x7d)-WA\d+` at one position. -/
def matchWhatsAppAt (l : List Char) : Option (List Char) :=
  match l with
  | 'I' :: 'M' :: 'G' :: '-' :: r =>
    match readDigits 8 r with
    | some (d8, r2) =>
      match r2 with
      | '-' :: 'W' :: 'A' :: c :: _ => if c.isDigit then some d8 else none
      | _ => none
    | none => none
  | _ => none

/-- `re.search` for the WhatsApp pattern. -/
def searchWhatsApp : List Char → Option (List Char)
  | [] => none
  | c :: r =>
    match matchWhatsAppAt (c :: r) with
    | some x => some x
    | none => searchWhatsApp r

/-- Source lines 47-61: extractor for WhatsApp-style names such as
`IMG-20250127-WA0006.jpg`; date is that day, time fields zero. -/
def get_date_from_whatsapp_filepath (p : String) : Option Date :=
  match searchWhatsApp (basename p).data with
  | none => none
  | some d8 =>
    strptimeDate (natOfDigits (d8.take 4)) (natOfDigits ((d8.drop 4).take 2))
      (natOfDigits (d8.drop 6)) 0 0 0

/-- Character class `[\s\-_a-zA-z]` of the date-prefixed regex.  Note the
source writes `A-z`, so ASCII 65-122 is included; `\s` is modelled by its
ASCII members, which is faithful for ASCII file names. -/
def sepClass (c : Char) : Bool :=
  c == ' ' || c == '\t' || c == '\n' || c == '\r' || c.toNat == 11 ||
    c.toNat == 12 || c == '-' || c == '_' || (65 ≤ c.toNat && c.toNat ≤ 122)

/-- Alternatives, in backtracking preference order, for one optional group
`(?:-?(\d\x7b2\x7d))?`: a hyphen plus two digits, two digits, or nothing. -/
def optGroupCands (l : List Char) : List (Option Nat × List Char) :=
  (match l with
   | '-' :: r =>
     match read2 r with
     | some (n, rest) => [(some n, rest)]
     | none => []
   | _ => []) ++
  (match read2 l with
   | some (n, rest) => [(some n, rest)]
   | none => []) ++
  [(none, l)]

/-- Alternatives for the optional time group `(?:-(\d\x7b2\x7d)(\d\x7b2\x7d)(\d\x7b2\x7d))?`. -/
def timeCands (l : List Char) : List (Option (Nat × Nat × Nat) × List Char) :=
  (match l with
   | '-' :: r =>
     match read2 r with
     | some (h, r1) =>
       match read2 r1 with
       | some (mi, r2) =>
         match read2 r2 with
         | some (s, r3) => [(some (h, mi, s), r3)]
         | none => []
       | none => []
     | none => []
   | _ => []) ++ [(none, l)]

/-- Backtracking search of the date-prefixed regex after the year group:
candidate (month, day, time) splits are tried in the regex engine's
depth-first order and the first one whose following character is in the
separator class wins, yielding the captured groups. -/
def normalCandFinds (r1 : List Char) :
    Option (Option Nat × Option Nat × Option (Nat × Nat × Nat)) :=
  let cands := (optGroupCands r1).flatMap (fun mo2 =>
    (optGroupCands mo2.2).flatMap (fun d2 =>
      (timeCands d2.2).map (fun t2 => (mo2.1, d2.1, t2.1, t2.2))))
  match cands.find? (fun x =>
      match x.2.2.2 with
      | c :: _ => sepClass c
      | [] => false) with
  | some (mo, d, t, _) => some (mo, d, t)
  | none => none

/-- Source lines 64-93: extractor for date-prefixed names.  The regex is
`^(\d\x7b4\x7d)(?:-?(\d\x7b2\x7d))?(?:-?(\d\x7b2\x7d))?(?:-(\d\x7b2\x7d)(\d\x7b2\x7d)(\d\x7b2\x7d))?[\s\-_a-zA-z]` on the
basename; missing groups default per the source's nesting rule, and the
result is validated by `strptime("%Y-%m-%d %H:%M:%S")`. -/
def get_date_from_normal_date_prefixed_filepath (p : String) : Option Date :=
  match read4 (basename p).data with
  | none => none
  | some (y, r1) =>
    match normalCandFinds r1 with
    | none => none
    | some (mo, dd, t) =>
      let month := match mo with | some m => m | none => 1
      let day := match mo, dd with | some _, some dv => dv | _, _ => 1
      let hour := match dd, t with | some _, some hms => hms.1 | _, _ => 0
      let minute := match t with | some hms => hms.2.1 | none => 0
      let second := match t with | some hms => hms.2.2 | none => 0
      strptimeDate y month day hour minute second

def isHexLower (c : Char) : Bool :=
  c.isDigit || (97 ≤ c.toNat && c.toNat ≤ 102)

/-- Consume exactly `n` characters of class `[0-9a-f]`, returning the rest. -/
def readHexChunk : Nat → List Char → Option (List Char)
  | 0, l => some l
  | _ + 1, [] => none
  | n + 1, c :: r => if isHexLower c then readHexChunk n r else none

/-- The UUID tail `[0-9a-f]\x7b8\x7d-[0-9a-f]\x7b4\x7d-[0-9a-f]\x7b4\x7d-[0-9a-f]\x7b4\x7d-[0-9a-f]\x7b12\x7d`. -/
def uuidShape (l : List Char) : Bool :=
  match readHexChunk 8 l with
  | some ('-' :: r1) =>
    match readHexChunk 4 r1 with
    | some ('-' :: r2) =>
      match readHexChunk 4 r2 with
      | some ('-' :: r3) =>
        match readHexChunk 4 r3 with
        | some ('-' :: r4) => (readHexChunk 12 r4).isSome
        | _ => false
      | _ => false
    | _ => false
  | _ => false

/-- Source lines 96-112: extractor for timestamp-prefixed UUID names.  The
prefix integer is divided by 1000 with float true-division — CPython raises
`OverflowError` when the quotient exceeds the double range (modelled by the
`2 ^ 1024` bound) — and passed to `datetime.fromtimestamp`, which raises
`OverflowError` beyond the `time_t` range and `ValueError` for years beyond
9999.  Only `ValueError` is caught by the source's `except` clause; local
timezone and sub-second parts of `fromtimestamp` are not modelled. -/
def get_date_from_uuid_filepath (p : String) : Except PyErr (Option Date) :=
  let l := (basename p).data
  let digits := l.takeWhile Char.isDigit
  match digits, l.drop digits.length with
  | [], _ => .ok none
  | _ :: _, '-' :: r =>
    if uuidShape r then
      let n := natOfDigits digits
      if 1000 * 2 ^ 1024 ≤ n then .error .overflowError
      else if 2 ^ 63 ≤ n / 1000 then .error .overflowError
      else if 253402300799 < n / 1000 then .ok none
      else .ok (some (dateOfSecs (n / 1000)))
    else .ok none
  | _ :: _, _ => .ok none

/-- Source lines 115-126: the screenshot extractor checks the three
prefixes in order and, on a hit, re-runs the given dispatch on the path
rebuilt from the directory and the basename with every occurrence of the
prefix removed (`str.replace` removes all occurrences). -/
def get_date_from_screenshot_prefixed_filepath
    (dispatch : String → Except PyErr (Option Date)) (p : String) :
    Except PyErr (Option Date) :=
  let filename := basename p
  if ("Screenshot_").data.isPrefixOf filename.data then
    dispatch (pathJoin (dirname p) (String.mk (replaceAll ("Screenshot_").data [] filename.data)))
  else if ("Screenshot-").data.isPrefixOf filename.data then
    dispatch (pathJoin (dirname p) (String.mk (replaceAll ("Screenshot-").data [] filename.data)))
  else if ("Screenshot ").data.isPrefixOf filename.data then
    dispatch (pathJoin (dirname p) (String.mk (replaceAll ("Screenshot ").data [] filename.data)))
  else .ok none

/-! ### Extraction dispatcher (source lines 140-163) -/

def whatsappHandler (p : String) : Except PyErr (Option Date) :=
  .ok (get_date_from_whatsapp_filepath p)

def androidHandler (p : String) : Except PyErr (Option Date) :=
  .ok (get_date_from_android_filepath p)

def normalHandler (p : String) : Except PyErr (Option Date) :=
  .ok (get_date_from_normal_date_prefixed_filepath p)

/-- The dispatcher loop of `get_date_from_filepath`: handlers are tried in
order; a result strictly later than `now` is discarded and the loop
continues with the next handler; exceptions propagate. -/
def dispatchLoop : List (String → Except PyErr (Option Date)) → String → Date →
    Except PyErr (Option Date)
  | [], _, _ => .ok none
  | h :: rest, path, now =>
    match h path with
    | .error e => .error e
    | .ok none => dispatchLoop rest path now
    | .ok (some d) =>
      if now.toSecs < d.toSecs then dispatchLoop rest path now else .ok (some d)

/-- Source lines 140-163: the extraction dispatcher.  The screenshot
extractor re-enters the dispatcher on a strictly shorter path, which the
`fuel` argument makes structurally evident; callers pass fuel exceeding the
path length, so the `0` case is never reached on real inputs. -/
def get_date_from_filepath : Nat → String → Date → Except PyErr (Option Date)
  | 0, _, _ => .ok none
  | fuel + 1, path, now =>
    dispatchLoop
      [whatsappHandler, androidHandler, normalHandler, get_date_from_uuid_filepath,
        fun q => get_date_from_screenshot_prefixed_filepath
          (fun s => get_date_from_filepath fuel s now) q]
      path now

/-- Source lines 129-137: folder-name extraction applies the dispatcher to
the directory part of the path. -/
def get_date_from_foldername (file : String) (now : Date) :
    Except PyErr (Option Date) :=
  get_date_from_filepath ((dirname file).length + 1) (dirname file) now

/-- Source lines 294-297 of `process_file`: filename extraction, falling
back to folder-name extraction when it yields nothing. -/
def resolveDate (file : String) (now : Date) : Except PyErr (Option Date) :=
  match get_date_from_filepath (file.length + 1) file now with
  | .error e => .error e
  | .ok (some d) => .ok (some d)
  | .ok none => get_date_from_foldername file now

/-! ### Reconciliation engine (source lines 185-317) -/

/-- Process-wide configuration (argparse): `fix_future_dates` is `None`
when `--fix-future-dates` is not given. -/
structure Config where
  fix_future_dates : Option Int
  dry_run : Bool
  exclude_dirs : List String

/-- Observable per-file state: filesystem modification date and the
embedded EXIF date (`none` models both an absent tag and a read failure,
which `get_exif_date` maps to `None`). -/
structure FileState where
  fsDate : Date
  exif : Option Date
  deriving DecidableEq

/-- A metadata-accessor write call performed by the engine. -/
inductive Write where
  | setExif (d : Date)
  | setFile (d : Date)
  deriving DecidableEq

/-- Source lines 185-200: `set_exif_date` invokes exiftool unless dry-run. -/
def set_exif_date (cfg : Config) (d : Date) : List Write :=
  if cfg.dry_run then [] else [.setExif d]

/-- Source lines 203-215: `set_file_date` calls `os.utime` unless dry-run;
the flooring of pre-1970-01-02 dates happens when the call is applied. -/
def set_file_date (cfg : Config) (d : Date) : List Write :=
  if cfg.dry_run then [] else [.setFile d]

def imageExts : List String :=
  [".jpg", ".jpeg", ".png", ".gif", ".bmp", ".webp", ".tiff", ".tif",
   ".heic", ".heif", ".avif", ".jfif", ".jpe", ".jif", ".jfi", ".raw"]

/-- Source line 271: supported image extension check on the lowercased path. -/
def isImageFile (file : String) : Bool :=
  imageExts.any (fun e => e.data.isSuffixOf (file.data.map asciiLower))

/-- Source lines 293-317 of `process_file`, entered after the EXIF-range
branches: filename/folder extraction, the no-resolution return, the
year-match branch, and the final double write.  `w12` holds the writes of
the filesystem-date steps, `w3` those of the EXIF-range branches that fell
through, and `hasExif` records whether `original_exif_date` was truthy.
When extraction fails while `hasExif` is true, line 305 dereferences
`date.year` on `None`, an `AttributeError`. -/
def afterHeuristics (cfg : Config) (now : Date) (file : String) (st : FileState)
    (w12 w3 : List Write) (hasExif : Bool) : Except PyErr (List Write) :=
  match resolveDate file now with
  | .error e => .error e
  | .ok none => if hasExif then .error .attributeError else .ok w12
  | .ok (some d) =>
    if d.year = st.fsDate.year then .ok (w12 ++ w3 ++ set_exif_date cfg st.fsDate)
    else .ok (w12 ++ w3 ++ set_exif_date cfg d ++ set_file_date cfg d)

/-- Source lines 254-317 of `process_file` once the future threshold is
available (`k` is the configured `fix_future_dates` value, whose Python
truthiness is `k ≠ 0`).  Mirrors: the future and pre-1970-01-02 filesystem
checks on the originally read timestamp, the image-extension gate, and the
EXIF `if`/`elif` chain, whose first two branches perform a write and fall
through to the heuristics without returning. -/
def processWithThreshold (cfg : Config) (k : Int) (now : Date) (file : String)
    (st : FileState) : Except PyErr (List Write) :=
  let threshold : Int := now.toSecs + k * 86400
  let w1 := if k ≠ 0 ∧ threshold < st.fsDate.toSecs then set_file_date cfg now else []
  let w2 := if st.fsDate.toSecs < floorDate.toSecs then set_file_date cfg floorDate else []
  if isImageFile file then
    match st.exif with
    | some e =>
      if e.toSecs < floorDate.toSecs then
        afterHeuristics cfg now file st (w1 ++ w2) (set_exif_date cfg floorDate) true
      else if k ≠ 0 ∧ threshold < e.toSecs then
        afterHeuristics cfg now file st (w1 ++ w2) (set_exif_date cfg now) true
      else .ok (w1 ++ w2)
    | none => afterHeuristics cfg now file st (w1 ++ w2) [] false
  else .ok (w1 ++ w2)

/-- Source lines 249-317: per-file reconciliation.  Line 252 computes
`datetime.now() + timedelta(days=config.fix_future_dates)` before any
guard; with the option absent (`None`) `timedelta(days=None)` raises
`TypeError`. -/
def process_file (cfg : Config) (now : Date) (file : String) (st : FileState) :
    Except PyErr (List Write) :=
  match cfg.fix_future_dates with
  | none => .error .typeError
  | some k => processWithThreshold cfg k now file st

/-- Effect of one accessor call on the file state; `set_file_date` floors
dates before 1970-01-02 to the floor before calling `os.utime`. -/
def applyWrite (st : FileState) (w : Write) : FileState :=
  match w with
  | .setExif d => { st with exif := some d }
  | .setFile d =>
    { st with fsDate := if d.toSecs < floorDate.toSecs then floorDate else d }

def applyWrites (st : FileState) (ws : List Write) : FileState :=
  ws.foldl applyWrite st

/-! ### Traversal and cancellation (source lines 225-246) -/

/-- Source lines 225-233: the signal handler sets the global `exit_flag`,
logs, and then calls `sys.exit(0)`, i.e. raises `SystemExit` inside
whatever frame the signal interrupted; it never returns control. -/
def signal_handler (_sig : Nat) (_exit_flag : Bool) : Bool × Except PyErr Unit :=
  (true, .error .systemExit)

/-- Source lines 236-246 modelled over the list of files `os.walk` yields:
returns the files on which `process_file` is started.  The flag is checked
before each file, then the exclusion substrings. -/
def process_directory (cfg : Config) (exit_flag : Bool) :
    List String → List String
  | [] => []
  | f :: fs =>
    if exit_flag then []
    else if cfg.exclude_dirs.any (fun e => containsSub e.data f.data) then
      process_directory cfg exit_flag fs
    else f :: process_directory cfg exit_flag fs

/-- Fixed "current moment" used by the concrete evaluations below. -/
def now2025 : Date := ⟨2025, 10, 12, 0, 0, 0⟩

/-- A typical configuration: a 30-day future horizon, no dry-run. -/
def cfgStd : Config := ⟨some 30, false, []⟩

/-! ### Helper lemmas -/

/-- Whatever the handlers do, the dispatcher loop only ever returns a date
that passed its not-in-the-future check. -/
theorem dispatchLoop_le (hs : List (String → Except PyErr (Option Date)))
    (path : String) (now : Date) (d : Date)
    (h : dispatchLoop hs path now = .ok (some d)) : d.toSecs ≤ now.toSecs := by
  induction hs with
  | nil => simp [dispatchLoop] at h
  | cons hd tl ih =>
    rw [dispatchLoop] at h
    cases hh : hd path with
    | error e => rw [hh] at h; cases h
    | ok r =>
      rw [hh] at h
      cases r with
      | none => exact ih h
      | some d0 =>
        dsimp only at h
        by_cases hf : now.toSecs < d0.toSecs
        · rw [if_pos hf] at h
          exact ih h
        · rw [if_neg hf] at h
          cases h
          exact le_of_not_lt hf

/-- The full dispatcher inherits the bound for every fuel value. -/
theorem get_date_from_filepath_le (fuel : Nat) (path : String) (now : Date)
    (d : Date) (h : get_date_from_filepath fuel path now = .ok (some d)) :
    d.toSecs ≤ now.toSecs := by
  cases fuel with
  | zero => simp [get_date_from_filepath] at h
  | succ n => exact dispatchLoop_le _ _ _ _ h

/-- Filename-or-folder resolution only produces dates not later than now. -/
theorem resolveDate_le (file : String) (now : Date) (d : Date)
    (h : resolveDate file now = .ok (some d)) : d.toSecs ≤ now.toSecs := by
  unfold resolveDate at h
  cases hg : get_date_from_filepath (file.length + 1) file now with
  | error e => rw [hg] at h; cases h
  | ok r =>
    rw [hg] at h
    cases r with
    | some d0 => cases h; exact get_date_from_filepath_le _ _ _ _ hg
    | none => exact get_date_from_filepath_le _ _ _ _ h

/-- Reconciliation of an image file with no embedded date, a filesystem
date inside the sane range, and a successful extraction: the writes are
exactly those of the year-match branch or of the final double write. -/
theorem run_noExif (cfg : Config) (k : Int) (now : Date) (file : String)
    (st : FileState) (d : Date)
    (h1 : cfg.fix_future_dates = some k) (h2 : cfg.dry_run = false)
    (h4 : st.exif = none) (h10 : isImageFile file = true)
    (h7 : floorDate.toSecs ≤ st.fsDate.toSecs)
    (h6 : st.fsDate.toSecs ≤ now.toSecs + k * 86400)
    (h5 : resolveDate file now = .ok (some d)) :
    process_file cfg now file st =
      .ok (if d.year = st.fsDate.year then [.setExif st.fsDate]
           else [.setExif d, .setFile d]) := by
  have hw1 : ¬ (k ≠ 0 ∧ now.toSecs + k * 86400 < st.fsDate.toSecs) :=
    fun hc => absurd hc.2 (not_lt.mpr h6)
  have hw2 : ¬ (st.fsDate.toSecs < floorDate.toSecs) := not_lt.mpr h7
  unfold process_file
  rw [h1]
  unfold processWithThreshold
  simp only [if_neg hw1, if_neg hw2, h10, if_true, h4]
  unfold afterHeuristics
  rw [h5]
  dsimp only
  by_cases hy : d.year = st.fsDate.year
  · rw [if_pos hy, if_pos hy]
    simp [set_exif_date, h2]
  · rw [if_neg hy, if_neg hy]
    simp [set_exif_date, set_file_date, h2]

/-- Reconciliation of an image file whose filesystem date and embedded date
both lie inside the sane range performs no writes: it halts at the
embedded-date-exists branch. -/
theorem run_exif_ok (cfg : Config) (k : Int) (now : Date) (file : String)
    (st : FileState) (e : Date)
    (h1 : cfg.fix_future_dates = some k) (h4 : st.exif = some e)
    (h10 : isImageFile file = true)
    (h7 : floorDate.toSecs ≤ st.fsDate.toSecs)
    (h6 : st.fsDate.toSecs ≤ now.toSecs + k * 86400)
    (he1 : floorDate.toSecs ≤ e.toSecs)
    (he2 : e.toSecs ≤ now.toSecs + k * 86400) :
    process_file cfg now file st = .ok [] := by
  have hw1 : ¬ (k ≠ 0 ∧ now.toSecs + k * 86400 < st.fsDate.toSecs) :=
    fun hc => absurd hc.2 (not_lt.mpr h6)
  have hw2 : ¬ (st.fsDate.toSecs < floorDate.toSecs) := not_lt.mpr h7
  have hb1 : ¬ (e.toSecs < floorDate.toSecs) := not_lt.mpr he1
  have hb2 : ¬ (k ≠ 0 ∧ now.toSecs + k * 86400 < e.toSecs) :=
    fun hc => absurd hc.2 (not_lt.mpr he2)
  unfold process_file
  rw [h1]
  unfold processWithThreshold
  simp only [if_neg hw1, if_neg hw2, h10, if_true, h4, if_neg hb1, if_neg hb2]
  simp

/-! ### Claim theorems -/

/-- C1: the spec says that when the fix-future-dates horizon is not
configured, reconciliation skips future-date correction and completes the
remaining steps normally.  The code instead evaluates
`datetime.now() + timedelta(days=None)` before any guard, so every file's
processing fails with `TypeError` whenever the option is absent. -/
theorem c1_missing_horizon_crashes (cfg : Config) (now : Date) (file : String)
    (st : FileState) (h : cfg.fix_future_dates = none) :
    process_file cfg now file st = .error .typeError := by
  unfold process_file
  rw [h]

/-- Witness for C1 at a concrete input. -/
theorem c1_missing_horizon_crashes_witness :
    (Config.mk none false []).fix_future_dates = none ∧
      process_file (Config.mk none false []) now2025 ("photo.jpg")
        ⟨⟨2020, 5, 5, 0, 0, 0⟩, none⟩ = .error .typeError :=
  ⟨rfl, c1_missing_horizon_crashes _ _ _ _ rfl⟩

/-- C2: the spec says that after rewriting an out-of-range embedded date
(before the epoch floor, or past the future threshold) processing of the
file stops.  The source's `if`/`elif` chain has no `return` in those two
branches, so processing continues: the filename heuristic then overwrites
the embedded date again and rewrites the filesystem date, and when no
heuristic date exists at all, line 305 dereferences `date.year` on `None`
and the file's processing dies with `AttributeError`. -/
theorem c2_exif_rewrite_not_terminal :
    process_file cfgStd now2025 ("IMG_20190818_130841.jpg")
        ⟨⟨2020, 5, 5, 0, 0, 0⟩, some ⟨1960, 1, 1, 0, 0, 0⟩⟩ =
      .ok [.setExif floorDate, .setExif ⟨2019, 8, 18, 13, 8, 41⟩,
           .setFile ⟨2019, 8, 18, 13, 8, 41⟩] ∧
    process_file cfgStd now2025 ("IMG_20190818_130841.jpg")
        ⟨⟨2020, 5, 5, 0, 0, 0⟩, some ⟨2026, 1, 1, 0, 0, 0⟩⟩ =
      .ok [.setExif now2025, .setExif ⟨2019, 8, 18, 13, 8, 41⟩,
           .setFile ⟨2019, 8, 18, 13, 8, 41⟩] ∧
    process_file cfgStd now2025 ("noname.jpg")
        ⟨⟨2020, 5, 5, 0, 0, 0⟩, some ⟨1960, 1, 1, 0, 0, 0⟩⟩ =
      .error .attributeError :=
  ⟨by decide, by decide, by decide⟩

/-- C3 counterexample: the signal handler does not return control to the
frame it interrupted — it raises `SystemExit` — so a file whose
reconciliation the signal interrupted does not run to completion. -/
theorem c3_handler_exit_counterexample :
    (signal_handler 15 false).2 = Except.error PyErr.systemExit := rfl

/-- C3 amended: the handler sets the cancellation flag and then terminates
the process via `sys.exit(0)`; with the flag set the traversal starts no
further files, but work in flight is cut short by the exit rather than
running to completion. -/
theorem c3_cancellation_amended :
    (∀ sig flag, signal_handler sig flag = (true, Except.error PyErr.systemExit)) ∧
    (∀ cfg files, process_directory cfg true files = []) := by
  refine ⟨fun _ _ => rfl, fun cfg files => ?_⟩
  cases files with
  | nil => rfl
  | cons f fs => simp [process_directory]

/-- C4: the claim says no exception ever escapes an extractor, in
particular not the timestamp-prefixed-UUID extractor on an arbitrarily
large integer prefix.  On a 313-digit prefix the true division
`int(timestamp)/1000` overflows the float range and raises
`OverflowError`, which the source's `except ValueError` does not catch. -/
theorem c4_uuid_overflow_escapes :
    get_date_from_uuid_filepath
        (String.mk ('1' :: (List.replicate 312 '0' ++
          ("-12345678-1234-1234-1234-123456789abc.jpg").data))) =
      .error .overflowError := by decide

/-- C5: the first example of the claim holds, but the second fails: the
date-prefixed regex has no alternative for the `HH_MM_SS` time form that
the function's own docstring advertises, so `2021-07-14 20_25_57 party.jpg`
parses as 2021-07-14 00:00:00, not 20:25:57. -/
theorem c5_normal_extractor_eval :
    get_date_from_normal_date_prefixed_filepath ("2021 vacation.jpg") =
      some ⟨2021, 1, 1, 0, 0, 0⟩ ∧
    get_date_from_normal_date_prefixed_filepath ("2021-07-14 20_25_57 party.jpg") =
      some ⟨2021, 7, 14, 0, 0, 0⟩ := by
  exact ⟨by decide, by decide⟩

/-- C6 counterexample: `Screenshot_20190818-130841.png` does not resolve to
2019-08-18 13:08:41 and not via the Android pattern: the stripped name
lacks the literal `IMG_` prefix the Android regex requires, so the
date-prefixed pattern matches instead and the time digits are dropped. -/
theorem c6_screenshot_counterexample :
    get_date_from_filepath 31 ("Screenshot_20190818-130841.png") now2025 =
      .ok (some ⟨2019, 8, 18, 0, 0, 0⟩) ∧
    get_date_from_android_filepath ("20190818-130841.png") = none ∧
    get_date_from_filepath 31 ("Screenshot_20190818-130841.png") now2025 ≠
      .ok (some ⟨2019, 8, 18, 13, 8, 41⟩) :=
  ⟨by decide, by decide, by decide⟩

/-- C6 amended: the screenshot extractor strips the prefix and re-runs the
full dispatch on the remainder; `Screenshot_20190818-130841.png` resolves
via the date-prefixed pattern after stripping, yielding
2019-08-18 00:00:00 (the `-130841` time digits are dropped because the
following `.` is not in the regex's separator class). -/
theorem c6_screenshot_amended :
    get_date_from_filepath 31 ("Screenshot_20190818-130841.png") now2025 =
      get_date_from_filepath 30 ("20190818-130841.png") now2025 ∧
    get_date_from_normal_date_prefixed_filepath ("20190818-130841.png") =
      some ⟨2019, 8, 18, 0, 0, 0⟩ ∧
    get_date_from_filepath 31 ("Screenshot_20190818-130841.png") now2025 =
      .ok (some ⟨2019, 8, 18, 0, 0, 0⟩) :=
  ⟨by decide, by decide, by decide⟩

/-- C7: for an image file with no usable embedded date, an in-range
filesystem date and a successfully extracted date, reconciliation writes
the filesystem date into the embedded-date field and leaves the filesystem
timestamp alone when the years match, and otherwise writes the extracted
date to both. -/
theorem c7_no_embedded_date_branches (cfg : Config) (k : Int) (now : Date)
    (file : String) (st : FileState) (d : Date)
    (h1 : cfg.fix_future_dates = some k) (h2 : cfg.dry_run = false)
    (h4 : st.exif = none) (h10 : isImageFile file = true)
    (h7 : floorDate.toSecs ≤ st.fsDate.toSecs)
    (h6 : st.fsDate.toSecs ≤ now.toSecs + k * 86400)
    (h5 : resolveDate file now = .ok (some d)) :
    process_file cfg now file st =
      .ok (if d.year = st.fsDate.year then [.setExif st.fsDate]
           else [.setExif d, .setFile d]) :=
  run_noExif cfg k now file st d h1 h2 h4 h10 h7 h6 h5

/-- Witness for C7: year-match case on a concrete file. -/
theorem c7_no_embedded_date_branches_witness :
    resolveDate ("IMG_20190818_130841.jpg") now2025 =
      .ok (some ⟨2019, 8, 18, 13, 8, 41⟩) ∧
    process_file cfgStd now2025 ("IMG_20190818_130841.jpg")
        ⟨⟨2019, 3, 1, 0, 0, 0⟩, none⟩ = .ok [.setExif ⟨2019, 3, 1, 0, 0, 0⟩] := by
  refine ⟨by decide, ?_⟩
  have h := c7_no_embedded_date_branches cfgStd 30 now2025
    ("IMG_20190818_130841.jpg") ⟨⟨2019, 3, 1, 0, 0, 0⟩, none⟩
    ⟨2019, 8, 18, 13, 8, 41⟩ rfl rfl rfl (by decide) (by decide) (by decide)
    (by decide)
  exact h.trans (by decide)

/-- C8: the dispatcher never returns a date strictly later than the current
moment, and a future date produced by an extractor is discarded with the
loop continuing at the next extractor. -/
theorem c8_dispatcher_future_discard :
    (∀ fuel path now d, get_date_from_filepath fuel path now = .ok (some d) →
      d.toSecs ≤ now.toSecs) ∧
    (∀ h hs path now d, h path = .ok (some d) → now.toSecs < d.toSecs →
      dispatchLoop (h :: hs) path now = dispatchLoop hs path now) := by
  refine ⟨fun fuel path now d h => get_date_from_filepath_le fuel path now d h,
    fun h hs path now d hh hf => ?_⟩
  rw [dispatchLoop, hh]
  dsimp only
  rw [if_pos hf]

/-- Witness for C8: a concrete dispatch result bounded by now, and a
concrete future WhatsApp date (3000-01-01) being skipped. -/
theorem c8_dispatcher_future_discard_witness :
    (get_date_from_filepath 24 ("IMG_20200101_101010.jpg") now2025 =
        .ok (some ⟨2020, 1, 1, 10, 10, 10⟩) ∧
      Date.toSecs ⟨2020, 1, 1, 10, 10, 10⟩ ≤ now2025.toSecs) ∧
    (whatsappHandler ("IMG-30000101-WA0001.jpg") =
        .ok (some ⟨3000, 1, 1, 0, 0, 0⟩) ∧
      dispatchLoop [whatsappHandler] ("IMG-30000101-WA0001.jpg") now2025 =
        dispatchLoop [] ("IMG-30000101-WA0001.jpg") now2025) :=
  ⟨⟨by decide, c8_dispatcher_future_discard.1 24 ("IMG_20200101_101010.jpg")
      now2025 ⟨2020, 1, 1, 10, 10, 10⟩ (by decide)⟩,
   ⟨by decide, c8_dispatcher_future_discard.2 whatsappHandler []
      ("IMG-30000101-WA0001.jpg") now2025 ⟨3000, 1, 1, 0, 0, 0⟩ (by decide)
      (by decide)⟩⟩

/-- C9 counterexample: reconciliation is not idempotent.  For
`1969 vacation.jpg` with filesystem year 2020 and no embedded date, the
first run writes the extracted pre-epoch date 1969-01-01 into the embedded
field (and floors the filesystem date); the second run then finds an
embedded date before the epoch floor and performs further writes. -/
theorem c9_idempotence_counterexample :
    process_file cfgStd now2025 ("1969 vacation.jpg")
        ⟨⟨2020, 5, 5, 0, 0, 0⟩, none⟩ =
      .ok [.setExif ⟨1969, 1, 1, 0, 0, 0⟩, .setFile ⟨1969, 1, 1, 0, 0, 0⟩] ∧
    process_file cfgStd now2025 ("1969 vacation.jpg")
        (applyWrites ⟨⟨2020, 5, 5, 0, 0, 0⟩, none⟩
          [.setExif ⟨1969, 1, 1, 0, 0, 0⟩, .setFile ⟨1969, 1, 1, 0, 0, 0⟩]) =
      .ok [.setExif floorDate, .setExif ⟨1969, 1, 1, 0, 0, 0⟩,
           .setFile ⟨1969, 1, 1, 0, 0, 0⟩] ∧
    ([.setExif floorDate, .setExif ⟨1969, 1, 1, 0, 0, 0⟩,
      .setFile ⟨1969, 1, 1, 0, 0, 0⟩] : List Write) ≠ [] :=
  ⟨by decide, by decide, by decide⟩

/-- C9 amended: for an image file with no embedded date whose filesystem
date lies between the epoch floor and now, whose extraction succeeds, and
whose extracted date is not before the epoch floor, a second reconciliation
run (at any later moment, with a positive configured horizon) performs no
writes: the embedded date written by the first run halts the second at the
embedded-date-exists branch. -/
theorem c9_idempotent_amended (cfg : Config) (k : Int) (now₁ now₂ : Date)
    (file : String) (st : FileState) (d : Date) (ws : List Write)
    (h1 : cfg.fix_future_dates = some k) (h2 : cfg.dry_run = false)
    (hk : 1 ≤ k) (h4 : st.exif = none) (h10 : isImageFile file = true)
    (h7 : floorDate.toSecs ≤ st.fsDate.toSecs)
    (h8 : st.fsDate.toSecs ≤ now₁.toSecs)
    (h9 : now₁.toSecs ≤ now₂.toSecs)
    (hd : floorDate.toSecs ≤ d.toSecs)
    (h5 : resolveDate file now₁ = .ok (some d))
    (hws : process_file cfg now₁ file st = .ok ws) :
    process_file cfg now₂ file (applyWrites st ws) = .ok [] := by
  have hkm : (86400 : Int) ≤ k * 86400 := by
    have := mul_le_mul_of_nonneg_right hk (by norm_num : (0 : Int) ≤ 86400)
    simpa using this
  have h6 : st.fsDate.toSecs ≤ now₁.toSecs + k * 86400 := by linarith
  have hdle : d.toSecs ≤ now₁.toSecs := resolveDate_le file now₁ d h5
  have hrun := run_noExif cfg k now₁ file st d h1 h2 h4 h10 h7 h6 h5
  have hwseq := Except.ok.inj (hws.symm.trans hrun)
  by_cases hy : d.year = st.fsDate.year
  · rw [if_pos hy] at hwseq
    subst hwseq
    have happ : applyWrites st [Write.setExif st.fsDate] =
        { st with exif := some st.fsDate } := rfl
    rw [happ]
    exact run_exif_ok cfg k now₂ file { st with exif := some st.fsDate }
      st.fsDate h1 rfl h10 h7 (by linarith) h7 (by linarith)
  · rw [if_neg hy] at hwseq
    subst hwseq
    have happ : applyWrites st [Write.setExif d, Write.setFile d] =
        { st with
          exif := some d
          fsDate := (if d.toSecs < floorDate.toSecs then floorDate else d) } := rfl
    rw [happ, if_neg (not_lt.mpr hd)]
    exact run_exif_ok cfg k now₂ file
      { st with exif := some d, fsDate := d } d h1 rfl h10 hd (by linarith) hd
      (by linarith)

/-- Witness for C9 amended: a concrete year-mismatch file, run twice. -/
theorem c9_idempotent_amended_witness :
    process_file cfgStd now2025 ("IMG_20190818_130841.jpg")
        ⟨⟨2020, 5, 5, 0, 0, 0⟩, none⟩ =
      .ok [.setExif ⟨2019, 8, 18, 13, 8, 41⟩, .setFile ⟨2019, 8, 18, 13, 8, 41⟩] ∧
    process_file cfgStd now2025 ("IMG_20190818_130841.jpg")
        (applyWrites ⟨⟨2020, 5, 5, 0, 0, 0⟩, none⟩
          [.setExif ⟨2019, 8, 18, 13, 8, 41⟩, .setFile ⟨2019, 8, 18, 13, 8, 41⟩]) =
      .ok [] := by
  refine ⟨by decide, ?_⟩
  exact c9_idempotent_amended cfgStd 30 now2025 now2025
    ("IMG_20190818_130841.jpg") ⟨⟨2020, 5, 5, 0, 0, 0⟩, none⟩
    ⟨2019, 8, 18, 13, 8, 41⟩
    [.setExif ⟨2019, 8, 18, 13, 8, 41⟩, .setFile ⟨2019, 8, 18, 13, 8, 41⟩]
    rfl rfl (by norm_num) rfl (by decide) (by decide) (by decide) (by decide)
    (by decide) (by decide) (by decide)

/-- C10 counterexample: the claim says the Android extractor returns the
date of an `IMG_YYYYMMDD_HHMMSS` substring wherever it occurs.  Here the
basename contains the well-formed `IMG_20200101_101010`, but `re.search`
finds the earlier malformed `IMG_99999999_999999` first and the extractor
returns no date. -/
theorem c10_substring_counterexample :
    containsSub ("IMG_20200101_101010").data
        (basename ("IMG_99999999_999999_IMG_20200101_101010.jpg")).data = true ∧
    get_date_from_android_filepath
        ("IMG_99999999_999999_IMG_20200101_101010.jpg") = none :=
  ⟨by decide, by decide⟩

/-- C10 amended: the WhatsApp and Android patterns are searched anywhere in
the basename, and the extractor returns the date of the first (leftmost)
occurrence when it parses as a valid calendar date — an earlier malformed
occurrence yields no date even when a valid one follows — while the
date-prefixed, UUID, and screenshot extractors only match at the start of
the basename. -/
theorem c10_match_position_amended :
    get_date_from_android_filepath ("holiday IMG_20200101_101010 pic.jpg") =
      some ⟨2020, 1, 1, 10, 10, 10⟩ ∧
    get_date_from_whatsapp_filepath ("x IMG-20250127-WA0006.jpg") =
      some ⟨2025, 1, 27, 0, 0, 0⟩ ∧
    get_date_from_android_filepath
        ("IMG_99999999_999999_IMG_20200101_101010.jpg") = none ∧
    (∀ p c r, (basename p).data = c :: r → c.isDigit = false →
      get_date_from_normal_date_prefixed_filepath p = none) ∧
    (∀ p c r, (basename p).data = c :: r → c.isDigit = false →
      get_date_from_uuid_filepath p = .ok none) ∧
    (∀ dispatch p,
      ("Screenshot_").data.isPrefixOf (basename p).data = false →
      ("Screenshot-").data.isPrefixOf (basename p).data = false →
      ("Screenshot ").data.isPrefixOf (basename p).data = false →
      get_date_from_screenshot_prefixed_filepath dispatch p = .ok none) := by
  refine ⟨by decide, by decide, by decide, ?_, ?_, ?_⟩
  · intro p c r hd hdig
    unfold get_date_from_normal_date_prefixed_filepath
    rw [hd]
    simp [read4, readDigits, hdig]
  · intro p c r hd hdig
    unfold get_date_from_uuid_filepath
    rw [hd]
    simp [List.takeWhile_cons, hdig]
  · intro dispatch p hs1 hs2 hs3
    unfold get_date_from_screenshot_prefixed_filepath
    simp [hs1, hs2, hs3]

/-- Witness for C10 amended, instantiating the three universally
quantified anchoring statements at concrete inputs. -/
theorem c10_match_position_amended_witness :
    ((basename ("x2021 a.jpg")).data = 'x' :: ("2021 a.jpg").data ∧
      get_date_from_normal_date_prefixed_filepath ("x2021 a.jpg") = none) ∧
    get_date_from_uuid_filepath
        ("z123-12345678-1234-1234-1234-123456789abc.jpg") = .ok none ∧
    get_date_from_screenshot_prefixed_filepath get_date_from_uuid_filepath
        ("photo.jpg") = .ok none :=
  ⟨⟨by decide, c10_match_position_amended.2.2.2.1 ("x2021 a.jpg") 'x'
      (("2021 a.jpg").data) (by decide) (by decide)⟩,
   c10_match_position_amended.2.2.2.2.1
      ("z123-12345678-1234-1234-1234-123456789abc.jpg") 'z'
      (("123-12345678-1234-1234-1234-123456789abc.jpg").data) (by decide)
      (by decide),
   c10_match_position_amended.2.2.2.2.2 get_date_from_uuid_filepath
      ("photo.jpg") (by decide) (by decide) (by decide)⟩

end IDF
